import Mathlib

/-!
Verification of the admin SPA's session / HTTP-client layer and the
per-screen filter, pagination and mutation logic, shallowly embedded from
the TypeScript sources.

Durable client-side storage (`localStorage`) holds exactly two keys the
application ever writes: `token` and `role`.  We model it as a record of
two optional strings.  Navigation (`window.location.href` / `navigate`)
is modelled as an optional target route produced by an operation.
-/

namespace Spec2Proof

/-- Durable client-side storage: the two keys the app uses
(`localStorage.getItem('token')`, `localStorage.getItem('role')`). -/
structure Storage where
  token : Option String
  role : Option String
deriving Repr, DecidableEq

/-- Models `localStorage.clear()`. -/
def Storage.clear : Storage := { token := none, role := none }

/-- An HTTP error as seen by an axios response interceptor:
`error.response.status` (we only model errors that carry a response). -/
structure HttpError where
  status : Nat
deriving Repr, DecidableEq

/-- Outcome of pushing a response error through a client's response
interceptors: resulting storage, an optional forced navigation, and the
error the caller's failure handler receives. -/
structure ErrorOutcome where
  storage : Storage
  navigation : Option String
  rejectedWith : HttpError
deriving Repr, DecidableEq

/-- src/unnamed/part_000, `api.interceptors.response.use` error handler:
on status 401 it clears storage (`localStorage.clear()`), sets
`window.location.href = '/login'`, and returns `Promise.reject(error)`
with the original error. -/
def part000OnRejected (error : HttpError) (st : Storage) : ErrorOutcome :=
  if error.status = 401 then
    { storage := Storage.clear, navigation := some "/login", rejectedWith := error }
  else
    { storage := st, navigation := none, rejectedWith := error }

/-- src/src/api/axios.ts registers no response interceptor at all, so a
response error passes through axios unchanged: storage is untouched, no
navigation occurs, and the promise rejects with the original error. -/
def srcAxiosOnRejected (error : HttpError) (st : Storage) : ErrorOutcome :=
  { storage := st, navigation := none, rejectedWith := error }

/-- The login response body as used by src/src/pages/Login.tsx
(`response.success`, `response.data.token`, `response.data.role`). -/
structure LoginResponse where
  success : Bool
  token : String
  role : String
deriving Repr, DecidableEq

/-- src/src/pages/Login.tsx, `loginMutation.onSuccess`: when
`response.success`, write the token and the role to storage and navigate
to `/dashboard`; otherwise leave storage alone (an error message is shown
instead). -/
def loginOnSuccess (response : LoginResponse) (st : Storage) :
    Storage × Option String :=
  if response.success then
    ({ token := some response.token, role := some response.role },
      some "/dashboard")
  else
    (st, none)

/-- src/src/layouts/DashboardLayout.tsx, `handleLogout`:
`localStorage.removeItem('token')` followed by `navigate('/login')`.
Only the token key is removed. -/
def handleLogout (st : Storage) : Storage × Option String :=
  ({ st with token := none }, some "/login")

/-! ## Orders screen (src/unnamed/part_001) -/

/-- The order status enum from src/unnamed types
(`'ORDER_PLACED' | 'PACKED' | 'OUT_FOR_DELIVERY' | 'DELIVERED' | 'CANCELLED'`). -/
inductive OrderStatus where
  | ORDER_PLACED
  | PACKED
  | OUT_FOR_DELIVERY
  | DELIVERED
  | CANCELLED
deriving Repr, DecidableEq

open OrderStatus

/-- One entry of the `ORDER_STEPS` array (label and status; the icon is
presentation-only and omitted). -/
structure OrderStep where
  label : String
  status : OrderStatus
deriving Repr, DecidableEq

/-- The `ORDER_STEPS` constant of the Orders page. -/
def ORDER_STEPS : List OrderStep :=
  [ { label := "Pending", status := ORDER_PLACED },
    { label := "Packed", status := PACKED },
    { label := "Shipped", status := OUT_FOR_DELIVERY },
    { label := "Delivered", status := DELIVERED } ]

/-- Return value of `getNextAction`: the button label and the status the
footer button requests. -/
structure NextAction where
  label : String
  next : OrderStatus
deriving Repr, DecidableEq

/-- src/unnamed/part_001, `getNextAction`: the footer's single-step
advance along the chain; `null` for `DELIVERED` and `CANCELLED`. -/
def getNextAction (currentStatus : OrderStatus) : Option NextAction :=
  match currentStatus with
  | ORDER_PLACED => some { label := "Ready to Pack", next := PACKED }
  | PACKED => some { label := "Ship Order", next := OUT_FOR_DELIVERY }
  | OUT_FOR_DELIVERY => some { label := "Mark Delivered", next := DELIVERED }
  | _ => none

/-- The status-transition requests the "Update Status" dropdown can
construct for an order whose current status is `s`: the dropdown is
rendered only when `!isCancelled && details.status !== 'DELIVERED'`, and
it offers one `updateStatusMutation.mutate(step.status)` button per entry
of `ORDER_STEPS`. -/
def dropdownRequests (s : OrderStatus) : List OrderStatus :=
  if s ≠ CANCELLED ∧ s ≠ DELIVERED then ORDER_STEPS.map (fun step => step.status)
  else []

/-- The status-transition request the footer action button can construct:
rendered only when `nextAction && !isCancelled`, and it requests
`nextAction.next`. -/
def footerRequest (s : OrderStatus) : Option OrderStatus :=
  if s = CANCELLED then none
  else (getNextAction s).map (fun a => a.next)

/-- All status-transition requests the Orders UI can construct for an
order currently in status `s` (dropdown options plus footer button). -/
def uiStatusRequests (s : OrderStatus) : List OrderStatus :=
  dropdownRequests s ++ (footerRequest s).toList

/-- The forward chain `ORDER_PLACED → PACKED → OUT_FOR_DELIVERY →
DELIVERED` that the spec says is the only source of transition
requests. -/
def chainNext (s : OrderStatus) : Option OrderStatus :=
  match s with
  | ORDER_PLACED => some PACKED
  | PACKED => some OUT_FOR_DELIVERY
  | OUT_FOR_DELIVERY => some DELIVERED
  | _ => none

/-! ## Filter changes and page resets (C4)

Each screen's filter/page state is a record; each filter-change handler
is the state transition its `onClick`/`onChange` performs. -/

/-- The Inventory stock-status tab values (`'ALL' | 'LOW' | 'OUT'`). -/
inductive StockFilter where
  | ALL
  | LOW
  | OUT
deriving Repr, DecidableEq

/-- Filter/pagination state of src/src/pages/Inventory.tsx.  Note the
page state is 1-based there (`useState(1)`). -/
structure InventoryState where
  search : String
  statusFilter : StockFilter
  categoryFilter : String
  priceFilter : String
  currentPage : Nat
deriving Repr, DecidableEq

/-- Inventory `clearFilters`: resets every filter and the page (to 1,
the first page of its 1-based pagination). -/
def inventoryClearFilters (_s : InventoryState) : InventoryState :=
  { search := "", statusFilter := StockFilter.ALL, categoryFilter := "",
    priceFilter := "", currentPage := 1 }

/-- Filter/pagination/selection state of src/src/pages/Delivery.tsx. -/
structure DeliveryState where
  page : Nat
  search : String
  selectedIds : List Nat
  deliveryPhone : String
deriving Repr, DecidableEq

/-- The committed values of a debounced input fed the given keystrokes:
a keystroke's timer survives iff the next keystroke is at least 500ms
later; the final keystroke's timer always fires. -/
def debounceCommits : List (Nat × String) → List String
  | [] => []
  | (_, v) :: [] => [v]
  | (t, v) :: (t', v') :: rest =>
      if t' - t < 500 then debounceCommits ((t', v') :: rest)
      else v :: debounceCommits ((t', v') :: rest)

/-- Query-key changes (hence fetches) produced by a stream of committed
values, given the currently committed value `cur`: a commit equal to the
current value leaves the key unchanged and triggers nothing. -/
def keyChanges (cur : String) : List String → List String
  | [] => []
  | v :: rest => if v ≠ cur then v :: keyChanges v rest else keyChanges cur rest

/-- Fetches caused by typing into the Orders phone-search box, whose
debounced value starts as the empty string. -/
def ordersSearchFetches (keystrokes : List (Nat × String)) : List String :=
  keyChanges "" (debounceCommits keystrokes)

/-- Fetches caused by typing into the Delivery search box: the raw input
value is part of the query key with no debounce, so every keystroke's
value reaches the key immediately. -/
def deliverySearchFetches (keystrokes : List (Nat × String)) : List String :=
  keyChanges "" (keystrokes.map (fun k => k.2))

/-! ## Bulk delivery assignment (src/src/pages/Delivery.tsx, C6) -/

/-- What the Delivery screen shows/holds after `assignMutation` settles,
plus the PATCH requests it issued (order id paired with the
`deliveryPhone` query parameter). -/
structure AssignOutcome where
  requests : List (Nat × String)
  selectedIds : List Nat
  deliveryPhone : String
  toast : String
deriving Repr, DecidableEq

/-- The `assignMutation` run against per-order backend outcomes
(`resolves id = true` iff the PATCH for `id` resolves):
the mutation function throws before issuing anything when the phone is
empty; otherwise it fires one PATCH per selected id in parallel and
`Promise.all`s them.  `onSuccess` (all resolved) toasts success, clears
the selection and the phone input; `onError` (any rejection) toasts the
aggregate failure message and leaves the selection untouched. -/
def runAssignMutation (resolves : Nat → Bool) (s : DeliveryState) : AssignOutcome :=
  if s.deliveryPhone = "" then
    { requests := [], selectedIds := s.selectedIds, deliveryPhone := s.deliveryPhone,
      toast := "Failed to assign some orders. Check phone number." }
  else
    let reqs := s.selectedIds.map (fun id => (id, s.deliveryPhone))
    if s.selectedIds.all resolves then
      { requests := reqs, selectedIds := [], deliveryPhone := "",
        toast := "Successfully assigned " ++ toString s.selectedIds.length ++ " orders!" }
    else
      { requests := reqs, selectedIds := s.selectedIds, deliveryPhone := s.deliveryPhone,
        toast := "Failed to assign some orders. Check phone number." }

/-! ## Add Product composite flow (src/src/pages/Inventory.tsx, C7) -/

/-- JavaScript `String.prototype.toLowerCase()`: lower-case every
character. -/
def toLowerStr (s : String) : String := String.mk (s.data.map Char.toLower)

/-- JavaScript `String.prototype.includes`: `sub` occurs contiguously in
`s` (every string includes the empty string). -/
def strIncludes (s sub : String) : Bool :=
  (List.range (s.length + 1)).any
    (fun i => ((s.data.drop i).take sub.length) = sub.data)

/-- A product as the Inventory filter consumes it
(src/src/types/inventory.ts; fields unused by the filter omitted). -/
structure Product where
  id : Nat
  name : String
  category : String
  price : Rat
  stock : Nat
deriving Repr, DecidableEq

/-- One entry of `PRICE_RANGES`; `max := none` models the `Infinity`
upper bound of the "Over $20" bracket. -/
structure PriceRange where
  label : String
  min : Rat
  max : Option Rat
deriving Repr, DecidableEq

/-- The `PRICE_RANGES` constant. -/
def PRICE_RANGES : List PriceRange :=
  [ { label := "Under $5", min := 0, max := some 5 },
    { label := "$5 - $10", min := 5, max := some 10 },
    { label := "$10 - $20", min := 10, max := some 20 },
    { label := "Over $20", min := 20, max := none } ]

/-- Models `product.price >= range.min && product.price < range.max`
(with `Infinity` making the upper test vacuous). -/
def inPriceRange (r : PriceRange) (price : Rat) : Bool :=
  decide (r.min ≤ price) &&
    (match r.max with
     | some m => decide (price < m)
     | none => true)

/-- The `filteredProducts` memo of src/src/pages/Inventory.tsx: conjunction of the
name search (case-insensitive substring), the stock-status tab
(`LOW`: `stock > 0 && stock < 20`; `OUT`: `stock === 0`), the category
filter (exact match when non-empty) and the price-bracket filter (looked
up in `PRICE_RANGES` by label when non-empty). -/
def filteredProducts (products : List Product) (search : String)
    (statusFilter : StockFilter) (categoryFilter priceFilter : String) :
    List Product :=
  products.filter fun product =>
    let matchesSearch := strIncludes (toLowerStr product.name) (toLowerStr search)
    let matchesStatus :=
      match statusFilter with
      | StockFilter.ALL => true
      | StockFilter.LOW => decide (product.stock > 0) && decide (product.stock < 20)
      | StockFilter.OUT => decide (product.stock = 0)
    let matchesCategory :=
      if categoryFilter = "" then true else decide (product.category = categoryFilter)
    let matchesPrice :=
      if priceFilter = "" then true
      else
        match PRICE_RANGES.find? (fun r => r.label = priceFilter) with
        | some range => inPriceRange range product.price
        | none => true
    matchesSearch && matchesStatus && matchesCategory && matchesPrice

/-! ## Edit Product submit (src/src/pages/Inventory.tsx `EditModal`,
src/unnamed/part_004 `EditProductModal`, C10) -/

/-- The three editable form fields after the `Number(...)` coercions the
submit handler applies. -/
structure EditFormData where
  price : Rat
  stock : Rat
  category : String
deriving Repr, DecidableEq

/-- The partial-update PATCH body: only fields that differ from the
product's current values are present. -/
structure UpdatePayload where
  price : Option Rat
  stock : Option Rat
  category : Option String
deriving Repr, DecidableEq

/-- True when `Object.keys(payload).length > 0` is false, i.e. no field was set. -/
def UpdatePayload.isEmpty (p : UpdatePayload) : Bool :=
  p.price.isNone && p.stock.isNone && p.category.isNone

/-- The payload the edit submit handler builds by diffing the form
against the product (`if (Number(data.price) !== editingProduct.price)
payload.price = ...` and likewise for stock and category). -/
def buildUpdatePayload (product : Product) (data : EditFormData) : UpdatePayload :=
  { price := if data.price ≠ product.price then some data.price else none,
    stock := if data.stock ≠ (product.stock : Rat) then some data.stock else none,
    category := if data.category ≠ product.category then some data.category else none }

/-- What an edit submission produced: the PATCH (if any) with its target
id and body, the cache keys invalidated, and the notification shown. -/
structure EditSubmitResult where
  request : Option (Nat × UpdatePayload)
  invalidations : List String
  toast : String
deriving Repr, DecidableEq

/-- The edit submit handler (`onSubmit` of `EditModal`): with a
non-empty payload it issues the PATCH (`updateMutation.mutate`), whose
`onSuccess` invalidates `['products']` and toasts success and whose
`onError` toasts failure; with an empty payload it only shows the
informational note.  `patchResolves` is whether the PATCH would
resolve. -/
def editOnSubmit (product : Product) (data : EditFormData)
    (patchResolves : Bool) : EditSubmitResult :=
  let payload := buildUpdatePayload product data
  if payload.isEmpty then
    { request := none, invalidations := [], toast := "No changes made" }
  else if patchResolves then
    { request := some (product.id, payload), invalidations := ["products"],
      toast := "Updated successfully" }
  else
    { request := some (product.id, payload), invalidations := [],
      toast := "Update failed" }

/-- The spec's sample product list with stock values `[0, 5, 19, 20, 50]`
(other fields arbitrary but concrete). -/
def c8Products : List Product :=
  [ { id := 1, name := "p0", category := "Pantry", price := 1, stock := 0 },
    { id := 2, name := "p1", category := "Pantry", price := 2, stock := 5 },
    { id := 3, name := "p2", category := "Pantry", price := 3, stock := 19 },
    { id := 4, name := "p3", category := "Pantry", price := 4, stock := 20 },
    { id := 5, name := "p4", category := "Pantry", price := 5, stock := 50 } ]

/-! ## Theorems -/

/-- Every string includes the empty string (`i = 0` witnesses the empty
occurrence). -/
theorem strIncludes_nil (s : String) : strIncludes s "" = true := by
  unfold strIncludes
  rw [List.any_eq_true]
  exact ⟨0, List.mem_range.mpr (Nat.succ_pos _), by simp⟩

/-- C1 (counterexample): the shared API client defined in
src/src/api/axios.ts registers no response interceptor, so a 401
response with a populated storage leaves the storage unchanged (the
token survives) and forces no navigation — refuting the claim that every
401 through the shared client clears durable storage and navigates to
the login route. -/
theorem c1_counterexample :
    (srcAxiosOnRejected { status := 401 }
        { token := some "tok", role := some "ADMIN" }).storage ≠ Storage.clear ∧
    (srcAxiosOnRejected { status := 401 }
        { token := some "tok", role := some "ADMIN" }).storage.token = some "tok" ∧
    (srcAxiosOnRejected { status := 401 }
        { token := some "tok", role := some "ADMIN" }).navigation = none := by
  decide

/-- C1 (amended): in the client variant that registers a response
interceptor (src/unnamed/part_000), every response error with status
401, whatever the endpoint and prior storage, clears all durable
storage, forces navigation to the login route, and re-rejects the
original error. -/
theorem c1_part000_401_clears_and_redirects (e : HttpError) (st : Storage)
    (h : e.status = 401) :
    part000OnRejected e st =
      { storage := Storage.clear, navigation := some "/login", rejectedWith := e } := by
  simp [part000OnRejected, h]

/-- Witness for C1's amended theorem at a concrete 401 error and
populated storage. -/
theorem c1_witness :
    part000OnRejected { status := 401 } { token := some "tok", role := some "ADMIN" } =
      { storage := Storage.clear, navigation := some "/login",
        rejectedWith := { status := 401 } } :=
  c1_part000_401_clears_and_redirects { status := 401 }
    { token := some "tok", role := some "ADMIN" } rfl

/-- C3 (counterexample): logging out from the dashboard removes only the
token; the role written at login survives in durable storage, refuting
the claim that logout removes both entries. -/
theorem c3_counterexample :
    (handleLogout { token := some "tok", role := some "ADMIN" }).1 ≠
      Storage.clear ∧
    ((handleLogout { token := some "tok", role := some "ADMIN" }).1).role =
      some "ADMIN" := by
  decide

/-- C3 (amended): a successful login writes exactly the token and the
role to durable storage; logout removes only the token entry, leaving
the role behind, and navigates to the login route; a 401 through the
part_000 interceptor clears both entries. -/
theorem c3_session_storage_lifecycle :
    (∀ (resp : LoginResponse) (st : Storage), resp.success = true →
      (loginOnSuccess resp st).1 =
        { token := some resp.token, role := some resp.role }) ∧
    (∀ st : Storage, (handleLogout st).1 = { token := none, role := st.role } ∧
      (handleLogout st).2 = some "/login") ∧
    (∀ (e : HttpError) (st : Storage), e.status = 401 →
      (part000OnRejected e st).storage = Storage.clear) := by
  refine ⟨fun resp st h => ?_, fun st => ⟨rfl, rfl⟩, fun e st h => ?_⟩
  · simp [loginOnSuccess, h]
  · simp [part000OnRejected, h]

/-- Witness for C3's amended theorem: a concrete successful login writes
both entries. -/
theorem c3_witness :
    (loginOnSuccess { success := true, token := "t", role := "MANAGER" }
        { token := none, role := none }).1 =
      { token := some "t", role := some "MANAGER" } :=
  c3_session_storage_lifecycle.1
    { success := true, token := "t", role := "MANAGER" }
    { token := none, role := none } rfl

/-- C5 (counterexample): for an order currently in status `PACKED`, the
Update Status dropdown can construct a transition request targeting
`ORDER_PLACED`, which is not the chain successor of `PACKED` — refuting
the claim that the Orders UI only constructs requests along the chain
`ORDER_PLACED → PACKED → OUT_FOR_DELIVERY → DELIVERED`. -/
theorem c5_counterexample :
    OrderStatus.ORDER_PLACED ∈ uiStatusRequests OrderStatus.PACKED ∧
    chainNext OrderStatus.PACKED ≠ some OrderStatus.ORDER_PLACED := by
  decide

/-- C5 (amended): the Orders UI never constructs a status-transition
request when the order's current status is `DELIVERED` or `CANCELLED`;
the footer action button's requests always follow the chain, while the
dropdown can target any of the four non-cancelled statuses from any
non-terminal state. -/
theorem c5_terminal_states_and_footer_chain :
    uiStatusRequests OrderStatus.DELIVERED = [] ∧
    uiStatusRequests OrderStatus.CANCELLED = [] ∧
    (∀ s t : OrderStatus, footerRequest s = some t → chainNext s = some t) ∧
    (∀ s t : OrderStatus, t ∈ dropdownRequests s →
      s ≠ OrderStatus.DELIVERED ∧ s ≠ OrderStatus.CANCELLED) := by
  refine ⟨by decide, by decide, fun s t h => ?_, fun s t h => ?_⟩
  · cases s <;> simp_all [footerRequest, getNextAction, chainNext]
  · cases s <;> simp_all [dropdownRequests]

/-- Witness for C5's amended theorem: the footer request from `PACKED`
is the chain successor `OUT_FOR_DELIVERY`. -/
theorem c5_witness :
    chainNext OrderStatus.PACKED = some OrderStatus.OUT_FOR_DELIVERY :=
  c5_terminal_states_and_footer_chain.2.2.1 OrderStatus.PACKED
    OrderStatus.OUT_FOR_DELIVERY (by decide)

/-- C6: the bulk delivery assignment issues one PATCH per selected order
id, all against the single entered delivery phone; if every request
resolves, the success notification is shown and the selection (and the
phone input) is cleared; if any single request rejects, the aggregate
failure notification is shown and the selected-ids set and phone are
left unchanged, regardless of the other requests' outcomes. -/
theorem c6_bulk_assignment (resolves : Nat → Bool) (s : DeliveryState)
    (hphone : s.deliveryPhone ≠ "") :
    (runAssignMutation resolves s).requests =
      s.selectedIds.map (fun id => (id, s.deliveryPhone)) ∧
    ((∀ id ∈ s.selectedIds, resolves id = true) →
      (runAssignMutation resolves s).selectedIds = [] ∧
      (runAssignMutation resolves s).toast =
        "Successfully assigned " ++ toString s.selectedIds.length ++ " orders!") ∧
    ((∃ id ∈ s.selectedIds, resolves id = false) →
      (runAssignMutation resolves s).selectedIds = s.selectedIds ∧
      (runAssignMutation resolves s).deliveryPhone = s.deliveryPhone ∧
      (runAssignMutation resolves s).toast =
        "Failed to assign some orders. Check phone number.") := by
  unfold runAssignMutation
  rw [if_neg hphone]
  by_cases hall : s.selectedIds.all resolves = true
  · rw [if_pos hall]
    refine ⟨rfl, fun _ => ⟨rfl, rfl⟩, fun hex => ?_⟩
    obtain ⟨id, hid, hfail⟩ := hex
    have htrue := List.all_eq_true.mp hall id hid
    rw [hfail] at htrue
    cases htrue
  · rw [if_neg hall]
    refine ⟨rfl, fun hallp => absurd (List.all_eq_true.mpr hallp) hall,
      fun _ => ⟨rfl, rfl, rfl⟩⟩

/-- Witness for C6 at the spec's own example: ids 101, 102, 103 selected,
the backend call for 102 rejecting — the failure toast is shown and the
selection survives intact. -/
theorem c6_witness :
    (runAssignMutation (fun id => decide (id ≠ 102))
        { page := 0, search := "", selectedIds := [101, 102, 103],
          deliveryPhone := "9876543210" }).selectedIds = [101, 102, 103] ∧
    (runAssignMutation (fun id => decide (id ≠ 102))
        { page := 0, search := "", selectedIds := [101, 102, 103],
          deliveryPhone := "9876543210" }).deliveryPhone = "9876543210" ∧
    (runAssignMutation (fun id => decide (id ≠ 102))
        { page := 0, search := "", selectedIds := [101, 102, 103],
          deliveryPhone := "9876543210" }).toast =
      "Failed to assign some orders. Check phone number." :=
  (c6_bulk_assignment (fun id => decide (id ≠ 102))
    { page := 0, search := "", selectedIds := [101, 102, 103],
      deliveryPhone := "9876543210" } (by decide)).2.2
    ⟨102, by decide, by decide⟩

/-- C8: with the other Inventory filters at their defaults, the LOW
stock-status filter returns exactly the products with
`0 < stock < 20` (this variant's threshold T is 20) and the OUT filter
exactly those with `stock = 0`; in particular, on stock values
`[0, 5, 19, 20, 50]`, LOW returns the items with stock 5 and 19 and OUT
the single item with stock 0. -/
theorem c8_stock_status_filter (products : List Product) :
    filteredProducts products "" StockFilter.LOW "" "" =
      products.filter (fun p => decide (p.stock > 0) && decide (p.stock < 20)) ∧
    filteredProducts products "" StockFilter.OUT "" "" =
      products.filter (fun p => decide (p.stock = 0)) ∧
    (filteredProducts c8Products "" StockFilter.LOW "" "").map (fun p => p.stock) =
      [5, 19] ∧
    (filteredProducts c8Products "" StockFilter.OUT "" "").map (fun p => p.stock) =
      [0] := by
  have hsearch : ∀ nm : String, strIncludes (toLowerStr nm) (toLowerStr "") = true :=
    fun nm => strIncludes_nil (toLowerStr nm)
  refine ⟨?_, ?_, by decide, by decide⟩
  · unfold filteredProducts
    apply List.filter_congr
    intro p _
    simp [hsearch]
  · unfold filteredProducts
    apply List.filter_congr
    intro p _
    simp [hsearch]

/-- C9 (counterexample): the Delivery search box feeds the query key
directly, so two keystrokes 100ms apart cause two fetches (one per
keystroke), not one — refuting the claim that every server-side search
input is debounced by 500ms. -/
theorem c9_counterexample :
    deliverySearchFetches [(0, "a"), (100, "ab")] = ["a", "ab"] ∧
    (deliverySearchFetches [(0, "a"), (100, "ab")]).length ≠ 1 := by
  decide

/-- C9 (amended): the Orders phone search is debounced by 500ms — two
keystrokes less than 500ms apart produce exactly one fetch, carrying the
final keystroke's value; the Delivery search box is not debounced. -/
theorem c9_orders_debounced_search (t1 t2 : Nat) (v1 v2 : String)
    (hgap : t2 - t1 < 500) (hne : v2 ≠ "") :
    ordersSearchFetches [(t1, v1), (t2, v2)] = [v2] := by
  simp [ordersSearchFetches, debounceCommits, keyChanges, hgap, hne]

/-- Witness for C9's amended theorem: keystrokes at 0ms and 100ms yield
the single fetch for the final value. -/
theorem c9_witness : ordersSearchFetches [(0, "a"), (100, "ab")] = ["ab"] :=
  c9_orders_debounced_search 0 100 "a" "ab" (by decide) (by decide)

/-- C10: submitting the Edit Product form with price, stock and category
all equal to the product's current values issues no PATCH, triggers no
invalidation, and shows only the informational note; a PATCH is issued
exactly when at least one field differs, targets the product's id with
the diff payload, and the payload's fields are present exactly for the
differing inputs; and whenever no request is issued nothing is
invalidated. -/
theorem c10_edit_submit (product : Product) (data : EditFormData)
    (patchResolves : Bool) :
    (data.price = product.price → data.stock = (product.stock : Rat) →
      data.category = product.category →
      editOnSubmit product data patchResolves =
        { request := none, invalidations := [], toast := "No changes made" }) ∧
    ((editOnSubmit product data patchResolves).request.isSome = true ↔
      (data.price ≠ product.price ∨ data.stock ≠ (product.stock : Rat) ∨
        data.category ≠ product.category)) ∧
    (∀ (id : Nat) (payload : UpdatePayload),
      (editOnSubmit product data patchResolves).request = some (id, payload) →
      id = product.id ∧ payload = buildUpdatePayload product data) ∧
    ((buildUpdatePayload product data).price.isSome = true ↔
      data.price ≠ product.price) ∧
    ((buildUpdatePayload product data).stock.isSome = true ↔
      data.stock ≠ (product.stock : Rat)) ∧
    ((buildUpdatePayload product data).category.isSome = true ↔
      data.category ≠ product.category) ∧
    ((editOnSubmit product data patchResolves).request = none →
      (editOnSubmit product data patchResolves).invalidations = []) := by
  refine ⟨fun h1 h2 h3 => ?_, ?_, fun id payload h => ?_, ?_, ?_, ?_, fun h => ?_⟩
  · simp [editOnSubmit, buildUpdatePayload, UpdatePayload.isEmpty, h1, h2, h3]
  · by_cases hp : data.price = product.price <;>
      by_cases hs : data.stock = (product.stock : Rat) <;>
      by_cases hc : data.category = product.category <;>
      cases patchResolves <;>
      simp [editOnSubmit, buildUpdatePayload, UpdatePayload.isEmpty, hp, hs, hc]
  · unfold editOnSubmit at h
    by_cases he : (buildUpdatePayload product data).isEmpty = true
    · simp [he] at h
    · cases patchResolves <;> simp [he] at h <;>
        exact ⟨h.1.symm, h.2.symm⟩
  · by_cases hp : data.price = product.price <;> simp [buildUpdatePayload, hp]
  · by_cases hs : data.stock = (product.stock : Rat) <;> simp [buildUpdatePayload, hs]
  · by_cases hc : data.category = product.category <;> simp [buildUpdatePayload, hc]
  · unfold editOnSubmit at h ⊢
    by_cases he : (buildUpdatePayload product data).isEmpty = true
    · simp [he]
    · cases patchResolves <;> simp [he] at h

/-- Witness for C10: a no-change submission on a concrete product
produces no request, no invalidation, and the informational note. -/
theorem c10_witness :
    editOnSubmit
        { id := 1, name := "Apple", category := "Produce", price := 3, stock := 10 }
        { price := 3, stock := 10, category := "Produce" } true =
      { request := none, invalidations := [], toast := "No changes made" } :=
  (c10_edit_submit
    { id := 1, name := "Apple", category := "Produce", price := 3, stock := 10 }
    { price := 3, stock := 10, category := "Produce" } true).1 rfl (by decide) rfl

end Spec2Proof
